import Mathlib

/-!
Verification of `simplecv/tracking/track_class.py`.

Shallow embedding conventions:
* A SimpleCV image is modelled by its size only (the drawing layer is
  modelled as a list of drawing events, see `DLOp`); pixel data never
  influences the code under verification.
* Python 2 integer arithmetic: bounding-box components are integers and
  `/` is floor division, which on `Int` with a positive divisor agrees
  with Mathlib's `Int` division.
* `float` coordinates coming from `cv2.KeyPoint.pt` are modelled as `ℚ`;
  Python's `int()` truncation toward zero is `pyInt`.
* Optional keyword arguments with a default (e.g. `color=Color.GREEN`)
  are modelled as `Option` parameters resolved with the source default.
  Python's truthiness test `if not size: size = 16` is modelled
  faithfully: a supplied `0` also falls back to `16`.
* Side-effecting draw helpers return the list of calls they perform on
  the image's drawing layer (`img.dl()`), in order.
* `time.time()` (wall clock) is not modelled; no claim mentions it.
* The `cv2.kmeans` call in `SURFTrack.__init__` is external: its result
  is passed to the embedded constructor as an explicit parameter
  `km_out`, bound and then (as in the source) never used.
-/

/-- A SimpleCV image, reduced to its size query `size_tuple`. -/
structure Image where
  width : Int
  height : Int
deriving DecidableEq

def Image.size_tuple (img : Image) : Int × Int :=
  (img.width, img.height)

/-- A BGR color tuple; `Color.GREEN` is SimpleCV's green. -/
abbrev Color := Int × Int × Int

def Color.GREEN : Color :=
  (0, 255, 0)

/-- One call on an image's drawing layer (`img.dl()`).  A `text` event
records the format string and the argument tuple of the Python `%`
formatting expression, plus position and color. -/
inductive DLOp where
  | circle (center : ℚ × ℚ) (rad : Int) (color : Color) (thickness : Int)
  | rectangle (x y w h : Int) (color : Color) (thickness : Int)
  | set_font_size (size : Int)
  | text (fmt : String) (args : List ℚ) (pos : Int × Int) (color : Color)
deriving DecidableEq

/-- State written by `Track.__init__`: the bounding box, the frame
reference, and the caller-populated fields with their constructor
defaults (`sizeRatio`, `vel`, `rt_vel`, `predict_pt`, `state_pt`).
Derived values (`bb_x`, `bb_y`, `w`, `h`, `x`, `y`, `center`) are
definitions below; `bb` is immutable in the embedding so recomputing
them agrees with the one-shot computation in `__init__`. -/
structure Track where
  bb : Int × Int × Int × Int
  image : Image
  sizeRatio : ℚ
  vel : ℚ × ℚ
  rt_vel : ℚ × ℚ
  predict_pt : ℚ × ℚ
  state_pt : ℚ × ℚ
deriving DecidableEq

/-- Embeds `Track.__init__(img, bb)`. -/
def Track.init (img : Image) (bb : Int × Int × Int × Int) : Track :=
  { bb := bb
    image := img
    sizeRatio := 1
    vel := (0, 0)
    rt_vel := (0, 0)
    predict_pt := (0, 0)
    state_pt := (0, 0) }

def Track.bb_x (f : Track) : Int := f.bb.1

def Track.bb_y (f : Track) : Int := f.bb.2.1

def Track.w (f : Track) : Int := f.bb.2.2.1

def Track.h (f : Track) : Int := f.bb.2.2.2

/-- Embeds `Track.getCenter`: `(bb_x + w / 2, bb_y + h / 2)` (Python 2 integer
division). -/
def Track.getCenter (f : Track) : Int × Int :=
  (f.bb_x + f.w / 2, f.bb_y + f.h / 2)

def Track.x (f : Track) : Int := f.getCenter.1

def Track.y (f : Track) : Int := f.getCenter.2

/-- The `area` property: `w * h`. -/
def Track.area (f : Track) : Int :=
  f.w * f.h

def Track.getImage (f : Track) : Image :=
  f.image

def Track.getBB (f : Track) : Int × Int × Int × Int :=
  f.bb

/-- Embeds `Track.processTrack(func)`: apply a caller-supplied function to the
held frame. -/
def Track.processTrack {α : Type} (f : Track) (func : Image → α) : α :=
  func f.image

def Track.getPredictionPoints (f : Track) : ℚ × ℚ :=
  f.predict_pt

def Track.getCorrectedPoints (f : Track) : ℚ × ℚ :=
  f.state_pt

/-- Embeds `Track.draw`: one circle at the center. -/
def Track.draw (f : Track) (color : Option Color) (rad : Option Int)
    (thickness : Option Int) : List DLOp :=
  [DLOp.circle (↑f.getCenter.1, ↑f.getCenter.2) (rad.getD 1)
    (color.getD Color.GREEN) (thickness.getD 1)]

/-- Embeds `Track.drawBB`: one rectangle for the bounding box. -/
def Track.drawBB (f : Track) (color : Option Color)
    (thickness : Option Int) : List DLOp :=
  [DLOp.rectangle f.bb_x f.bb_y f.w f.h (color.getD Color.GREEN)
    (thickness.getD 3)]

/-- Resolve the Python pattern `if not size: size = 16` (`None` and `0`
are both falsy). -/
def resolveSize (size : Option Int) : Int :=
  match size with
  | none => 16
  | some s => if s = 0 then 16 else s

/-- Embeds `Track.showCoordinates`. -/
def Track.showCoordinates (f : Track) (pos : Option (Int × Int))
    (color : Option Color) (size : Option Int) : List DLOp :=
  let img := f.image
  let p := match pos with
    | none => (img.size_tuple.1 - 120, 10)
    | some p => p
  let s := resolveSize size
  let c := color.getD Color.GREEN
  [DLOp.set_font_size s,
   DLOp.text "x = %d  y = %d" [(f.x : ℚ), (f.y : ℚ)] p c]

/-- Embeds `Track.showSizeRatio`. -/
def Track.showSizeRatio (f : Track) (pos : Option (Int × Int))
    (color : Option Color) (size : Option Int) : List DLOp :=
  let img := f.image
  let p := match pos with
    | none => (img.size_tuple.1 - 120, 30)
    | some p => p
  let s := resolveSize size
  let c := color.getD Color.GREEN
  [DLOp.set_font_size s,
   DLOp.text "size = %f" [ Track.sizeRatio f] p c]

/-- Embeds `Track.showPixelVelocity`. -/
def Track.showPixelVelocity (f : Track) (pos : Option (Int × Int))
    (color : Option Color) (size : Option Int) : List DLOp :=
  let img := f.image
  let vel := f.vel
  let p := match pos with
    | none => (img.size_tuple.1 - 120, 90)
    | some p => p
  let s := resolveSize size
  let c := color.getD Color.GREEN
  [DLOp.set_font_size s,
   DLOp.text "Vx = %.2f Vy = %.2f" [vel.1, vel.2] p c,
   DLOp.text "in pixels/frame" [] (p.1, p.2 + s) c]

/-- Embeds `Track.showPixelVelocityRT`. -/
def Track.showPixelVelocityRT (f : Track) (pos : Option (Int × Int))
    (color : Option Color) (size : Option Int) : List DLOp :=
  let img := f.image
  let vel_rt := f.rt_vel
  let p := match pos with
    | none => (img.size_tuple.1 - 120, 50)
    | some p => p
  let s := resolveSize size
  let c := color.getD Color.GREEN
  [DLOp.set_font_size s,
   DLOp.text "Vx = %.2f Vy = %.2f" [vel_rt.1, vel_rt.2] p c,
   DLOp.text "in pixels/second" [] (p.1, p.2 + s) c]

/-- Embeds `CAMShiftTrack`: `Track` plus an ellipse payload. -/
structure CAMShiftTrack where
  base : Track
  ellipse : ℚ × ℚ × ℚ
deriving DecidableEq

def CAMShiftTrack.init (img : Image) (bb : Int × Int × Int × Int)
    (ellipse : ℚ × ℚ × ℚ) : CAMShiftTrack :=
  { base := Track.init img bb
    ellipse := ellipse }

def CAMShiftTrack.getEllipse (f : CAMShiftTrack) : ℚ × ℚ × ℚ :=
  f.ellipse

/-- Embeds `LKTrack`: `Track` plus a possibly-null list of tracked points. -/
structure LKTrack where
  base : Track
  pts : Option (List (ℚ × ℚ))
deriving DecidableEq

def LKTrack.init (img : Image) (bb : Int × Int × Int × Int)
    (pts : Option (List (ℚ × ℚ))) : LKTrack :=
  { base := Track.init img bb
    pts := pts }

def LKTrack.getTrackedPoints (f : LKTrack) : Option (List (ℚ × ℚ)) :=
  f.pts

/-- Embeds `LKTrack.drawTrackerPoints`: skip entirely when `pts` is `None`,
otherwise one circle per point. -/
def LKTrack.drawTrackerPoints (f : LKTrack) (color : Option Color)
    (radius : Option Int) (thickness : Option Int) : List DLOp :=
  match f.pts with
  | none => []
  | some l =>
      l.map fun pt =>
        DLOp.circle pt (radius.getD 1) (color.getD Color.GREEN)
          (thickness.getD 1)

/-- A `cv2.KeyPoint`, reduced to its `pt` coordinate pair. -/
structure KeyPoint where
  pt : ℚ × ℚ
deriving DecidableEq

/-- Python `int()`: truncation toward zero. -/
def pyInt (q : ℚ) : Int :=
  if 0 ≤ q then ⌊q⌋ else ⌈q⌉

/-- Python `max` over a list (junk value `0` on `[]`, where Python would
raise; every use below is guarded by non-emptiness). -/
def listMax : List ℚ → ℚ
  | [] => 0
  | a :: l => l.foldl max a

/-- Python `min` over a list (junk value `0` on `[]`, as in `listMax`). -/
def listMin : List ℚ → ℚ
  | [] => 0
  | a :: l => l.foldl min a

/-- Opaque handle for a `cv2.FeatureDetector` / `cv2.DescriptorExtractor`
passed through unchanged. -/
abbrev CVHandle := Nat

/-- Opaque handle for a `numpy.ndarray` descriptor matrix; claims only
depend on whether it is `None`. -/
abbrev DescMat := Nat

/-- Result triple of the external `cv2.kmeans` call
`(retval, bestLabels, centers)`. -/
abbrev KMeansOut := ℚ × List Nat × List (ℚ × ℚ)

/-- A Python attribute slot: `absent` when `__init__` returned without
ever assigning it (access would raise `AttributeError`), `val a` when it
was assigned `a`. -/
inductive Attr (α : Type) where
  | absent
  | val (a : α)
deriving DecidableEq

/-- Embeds `SURFTrack` state.  All payload slots are `Attr` because the first
degenerate branch of `__init__` returns without assigning them.  `pts`
holds `val none` when the source assigns `self.pts = None`. -/
structure SURFTrack where
  base : Track
  pts : Attr (Option (List (ℚ × ℚ)))
  templateImg : Attr Image
  skp : Attr (List KeyPoint)
  sd : Attr (Option DescMat)
  tkp : Attr (List KeyPoint)
  td : Attr (Option DescMat)
  detector : Attr CVHandle
  descriptor : Attr CVHandle
deriving DecidableEq

/-- Embeds `SURFTrack.__init__`.  `km_out` is the result of the external
`cv2.kmeans(np_pts, K=1, ...)` call made in the valid branch; the source
binds it to `t, pts, center` and never uses any component. -/
def SURFTrack.init (img : Image) (new_pts : List KeyPoint)
    (detector descriptor : CVHandle) (templateImg : Image)
    (skp : List KeyPoint) (sd : Option DescMat) (tkp : List KeyPoint)
    (td : Option DescMat) (km_out : KMeansOut) : SURFTrack :=
  if td = none then
    { base := Track.init img (1, 1, 1, 1)
      pts := Attr.absent
      templateImg := Attr.absent
      skp := Attr.absent
      sd := Attr.absent
      tkp := Attr.absent
      td := Attr.absent
      detector := Attr.absent
      descriptor := Attr.absent }
  else if new_pts.length < 1 then
    { base := Track.init img (1, 1, 1, 1)
      pts := Attr.val none
      templateImg := Attr.val templateImg
      skp := Attr.val skp
      sd := Attr.val sd
      tkp := Attr.val tkp
      td := Attr.val td
      detector := Attr.val detector
      descriptor := Attr.val descriptor }
  else if sd = none then
    { base := Track.init img (1, 1, 1, 1)
      pts := Attr.val none
      templateImg := Attr.val templateImg
      skp := Attr.val skp
      sd := Attr.val sd
      tkp := Attr.val tkp
      td := Attr.val td
      detector := Attr.val detector
      descriptor := Attr.val descriptor }
  else
    let np_pts := new_pts.map KeyPoint.pt
    let _ := km_out
    let max_x := pyInt (listMax (np_pts.map Prod.fst))
    let min_x := pyInt (listMin (np_pts.map Prod.fst))
    let max_y := pyInt (listMax (np_pts.map Prod.snd))
    let min_y := pyInt (listMin (np_pts.map Prod.snd))
    let bb := (min_x - 5, min_y - 5, max_x - min_x + 5, max_y - min_y + 5)
    { base := Track.init img bb
      templateImg := Attr.val templateImg
      skp := Attr.val skp
      sd := Attr.val sd
      tkp := Attr.val tkp
      td := Attr.val td
      pts := Attr.val (some np_pts)
      detector := Attr.val detector
      descriptor := Attr.val descriptor }

/-- Embeds `SURFTrack.getTrackedPoints` (raises `AttributeError` when `pts` was
never assigned). -/
def SURFTrack.getTrackedPoints (f : SURFTrack) :
    Except String (Option (List (ℚ × ℚ))) :=
  match f.pts with
  | Attr.absent => Except.error "AttributeError"
  | Attr.val p => Except.ok p

/-- Embeds `SURFTrack.drawTrackerPoints`: `AttributeError` when `pts` was never
assigned; skip when it is `None`; otherwise one circle per point. -/
def SURFTrack.drawTrackerPoints (f : SURFTrack) (color : Option Color)
    (radius : Option Int) (thickness : Option Int) :
    Except String (List DLOp) :=
  match f.pts with
  | Attr.absent => Except.error "AttributeError"
  | Attr.val none => Except.ok []
  | Attr.val (some l) =>
      Except.ok <| l.map fun pt =>
        DLOp.circle pt (radius.getD 1) (color.getD Color.GREEN)
          (thickness.getD 1)

def SURFTrack.getDetector (f : SURFTrack) : Attr CVHandle :=
  f.detector

def SURFTrack.getDescriptor (f : SURFTrack) : Attr CVHandle :=
  f.descriptor

def SURFTrack.getImageKeyPoints (f : SURFTrack) : Attr (List KeyPoint) :=
  f.skp

def SURFTrack.getImageDescriptor (f : SURFTrack) : Attr (Option DescMat) :=
  f.sd

def SURFTrack.getTemplateKeyPoints (f : SURFTrack) : Attr (List KeyPoint) :=
  f.tkp

def SURFTrack.getTemplateDescriptor (f : SURFTrack) :
    Attr (Option DescMat) :=
  f.td

def SURFTrack.getTemplateImage (f : SURFTrack) : Attr Image :=
  f.templateImg

/-- Embeds `MFTrack`: `Track` plus the median-flow shift scalar. -/
structure MFTrack where
  base : Track
  shift : ℚ
deriving DecidableEq

def MFTrack.init (img : Image) (bb : Int × Int × Int × Int)
    (shift : ℚ) : MFTrack :=
  { base := Track.init img bb
    shift := shift }

def MFTrack.getShift (f : MFTrack) : ℚ :=
  f.shift

/-- Embeds `MFTrack.showShift`. -/
def MFTrack.showShift (f : MFTrack) (pos : Option (Int × Int))
    (color : Option Color) (size : Option Int) : List DLOp :=
  let img := f.base.image
  let shift := f.shift
  let p := match pos with
    | none => (img.size_tuple.1 - 120, 50)
    | some p => p
  let s := resolveSize size
  let c := color.getD Color.GREEN
  [DLOp.set_font_size s,
   DLOp.text "Shift = %.2f" [shift] p c,
   DLOp.text "in pixels/second" [] (p.1, p.2 + s) c]

/-- An accumulating fold with `min` is below its initial accumulator. -/
lemma foldl_min_le_init (l : List ℚ) (a : ℚ) : l.foldl min a ≤ a := by
  induction l generalizing a with
  | nil => exact le_refl a
  | cons b l ih => exact le_trans (ih (min a b)) (min_le_left a b)

/-- An accumulating fold with `min` is below every list element. -/
lemma foldl_min_le_mem (l : List ℚ) (a b : ℚ) (hb : b ∈ l) :
    l.foldl min a ≤ b := by
  induction l generalizing a with
  | nil => cases hb
  | cons c l ih =>
      rcases List.mem_cons.mp hb with h | h
      · subst h
        exact le_trans (foldl_min_le_init l (min a b)) (min_le_right a b)
      · exact ih (min a c) h

/-- An accumulating fold with `min` is the accumulator or a list element. -/
lemma foldl_min_mem (l : List ℚ) (a : ℚ) : l.foldl min a ∈ a :: l := by
  induction l generalizing a with
  | nil => exact List.mem_singleton.mpr rfl
  | cons b l ih =>
      rcases List.mem_cons.mp (ih (min a b)) with h1 | h1
      · rcases min_choice a b with hc | hc
        · rw [show (b :: l).foldl min a = l.foldl min (min a b) from rfl, h1, hc]
          exact List.mem_cons_self a (b :: l)
        · rw [show (b :: l).foldl min a = l.foldl min (min a b) from rfl, h1, hc]
          exact List.mem_cons_of_mem a (List.mem_cons_self b l)
      · exact List.mem_cons_of_mem a (List.mem_cons_of_mem b h1)

/-- An accumulating fold with `max` is above its initial accumulator. -/
lemma le_foldl_max_init (l : List ℚ) (a : ℚ) : a ≤ l.foldl max a := by
  induction l generalizing a with
  | nil => exact le_refl a
  | cons b l ih => exact le_trans (le_max_left a b) (ih (max a b))

/-- An accumulating fold with `max` is above every list element. -/
lemma le_foldl_max_mem (l : List ℚ) (a b : ℚ) (hb : b ∈ l) :
    b ≤ l.foldl max a := by
  induction l generalizing a with
  | nil => cases hb
  | cons c l ih =>
      rcases List.mem_cons.mp hb with h | h
      · subst h
        exact le_trans (le_max_right a b) (le_foldl_max_init l (max a b))
      · exact ih (max a c) h

/-- An accumulating fold with `max` is the accumulator or a list element. -/
lemma foldl_max_mem (l : List ℚ) (a : ℚ) : l.foldl max a ∈ a :: l := by
  induction l generalizing a with
  | nil => exact List.mem_singleton.mpr rfl
  | cons b l ih =>
      rcases List.mem_cons.mp (ih (max a b)) with h1 | h1
      · rcases max_choice a b with hc | hc
        · rw [show (b :: l).foldl max a = l.foldl max (max a b) from rfl, h1, hc]
          exact List.mem_cons_self a (b :: l)
        · rw [show (b :: l).foldl max a = l.foldl max (max a b) from rfl, h1, hc]
          exact List.mem_cons_of_mem a (List.mem_cons_self b l)
      · exact List.mem_cons_of_mem a (List.mem_cons_of_mem b h1)

/-- On a non-empty list, `listMin` is a member of the list. -/
lemma listMin_mem (l : List ℚ) (h : l ≠ []) : listMin l ∈ l := by
  cases l with
  | nil => exact absurd rfl h
  | cons a l => exact foldl_min_mem l a

/-- On any list, `listMin` is a lower bound of the members. -/
lemma listMin_le (l : List ℚ) (b : ℚ) (hb : b ∈ l) : listMin l ≤ b := by
  cases l with
  | nil => cases hb
  | cons a l =>
      rcases List.mem_cons.mp hb with h | h
      · subst h; exact foldl_min_le_init l b
      · exact foldl_min_le_mem l a b h

/-- On a non-empty list, `listMax` is a member of the list. -/
lemma listMax_mem (l : List ℚ) (h : l ≠ []) : listMax l ∈ l := by
  cases l with
  | nil => exact absurd rfl h
  | cons a l => exact foldl_max_mem l a

/-- On any list, `listMax` is an upper bound of the members. -/
lemma le_listMax (l : List ℚ) (b : ℚ) (hb : b ∈ l) : b ≤ listMax l := by
  cases l with
  | nil => cases hb
  | cons a l =>
      rcases List.mem_cons.mp hb with h | h
      · subst h; exact le_foldl_max_init l b
      · exact le_foldl_max_mem l a b h

/-- Abbreviation for the x coordinates of a keypoint list, as computed
by `np_pts[:, 0]` in the valid branch of `SURFTrack.__init__`. -/
def xsOf (new_pts : List KeyPoint) : List ℚ :=
  (new_pts.map KeyPoint.pt).map Prod.fst

/-- Abbreviation for the y coordinates of a keypoint list, as computed
by `np_pts[:, 1]` in the valid branch of `SURFTrack.__init__`. -/
def ysOf (new_pts : List KeyPoint) : List ℚ :=
  (new_pts.map KeyPoint.pt).map Prod.snd

/-- Fields of a `Track` that `Track.__init__` zero-initialises and
leaves to the caller to populate afterwards. -/
def freshDefaults (t : Track) : Prop :=
  t.vel = (0, 0) ∧ t.rt_vel = (0, 0) ∧
  t.predict_pt = (0, 0) ∧ t.state_pt = (0, 0)

/-- Whatever branch `SURFTrack.__init__` takes, the base state is the
result of some `Track.__init__(img, bb)` call on the same image. -/
lemma SURFTrack.init_base_eq (img : Image) (new_pts : List KeyPoint)
    (det desc : CVHandle) (timg : Image) (skp : List KeyPoint)
    (sd : Option DescMat) (tkp : List KeyPoint) (td : Option DescMat)
    (km : KMeansOut) :
    ∃ bb, (SURFTrack.init img new_pts det desc timg skp sd tkp td
      km).base = Track.init img bb := by
  unfold SURFTrack.init
  split
  · exact ⟨_, rfl⟩
  · split
    · exact ⟨_, rfl⟩
    · split
      · exact ⟨_, rfl⟩
      · exact ⟨_, rfl⟩

/-- C4: for every image and bounding-box tuple `(x, y, w, h)`, the
constructed track's center is `(x + w / 2, y + h / 2)` and its area is
`w * h`. -/
theorem claim_C4_center_and_area (img : Image) (x y w h : Int) :
    (Track.init img (x, y, w, h)).getCenter = (x + w / 2, y + h / 2) ∧
    Track.area (Track.init img (x, y, w, h)) = w * h :=
  ⟨rfl, rfl⟩

/-- C5: every constructed track returns from `getBB` exactly the
bounding-box tuple it was constructed with (shown for every constructor
that takes a bounding box). -/
theorem claim_C5_getBB_unmodified (img : Image) (bb : Int × Int × Int × Int)
    (e : ℚ × ℚ × ℚ) (pts : Option (List (ℚ × ℚ))) (sh : ℚ) :
    (Track.init img bb).getBB = bb ∧
    (CAMShiftTrack.init img bb e).base.getBB = bb ∧
    (LKTrack.init img bb pts).base.getBB = bb ∧
    (MFTrack.init img bb sh).base.getBB = bb :=
  ⟨rfl, rfl, rfl, rfl⟩

/-- C9: for every track and caller-supplied function, `processTrack`
returns exactly the function applied to the held frame image. -/
theorem claim_C9_processTrack {α : Type} (f : Track) (func : Image → α) :
    f.processTrack func = func f.getImage :=
  rfl

/-- C10: immediately after construction of the base track or any
variant, `vel`, `rt_vel`, `predict_pt` and `state_pt` are all `(0, 0)`,
and `getPredictionPoints` / `getCorrectedPoints` return `(0, 0)`. -/
theorem claim_C10_fresh_defaults (img : Image) (bb : Int × Int × Int × Int)
    (e : ℚ × ℚ × ℚ) (lkpts : Option (List (ℚ × ℚ))) (sh : ℚ)
    (new_pts : List KeyPoint) (det desc : CVHandle) (timg : Image)
    (skp : List KeyPoint) (sd : Option DescMat) (tkp : List KeyPoint)
    (td : Option DescMat) (km : KMeansOut) :
    freshDefaults (Track.init img bb) ∧
    freshDefaults (CAMShiftTrack.init img bb e).base ∧
    freshDefaults (LKTrack.init img bb lkpts).base ∧
    freshDefaults (MFTrack.init img bb sh).base ∧
    freshDefaults
      (SURFTrack.init img new_pts det desc timg skp sd tkp td km).base ∧
    (Track.init img bb).getPredictionPoints = (0, 0) ∧
    (Track.init img bb).getCorrectedPoints = (0, 0) := by
  refine ⟨⟨rfl, rfl, rfl, rfl⟩, ⟨rfl, rfl, rfl, rfl⟩, ⟨rfl, rfl, rfl, rfl⟩,
    ⟨rfl, rfl, rfl, rfl⟩, ?_, rfl, rfl⟩
  obtain ⟨bb', hbb⟩ :=
    SURFTrack.init_base_eq img new_pts det desc timg skp sd tkp td km
  rw [hbb]
  exact ⟨rfl, rfl, rfl, rfl⟩

/-- C7: the `SURFTrack` constructor's output — in particular its
bounding box — does not depend on the result of the `cv2.kmeans` call:
any two values of the k-means output yield the same object. -/
theorem claim_C7_kmeans_independent (img : Image) (new_pts : List KeyPoint)
    (det desc : CVHandle) (timg : Image) (skp : List KeyPoint)
    (sd : Option DescMat) (tkp : List KeyPoint) (td : Option DescMat)
    (r1 r2 : KMeansOut) :
    (SURFTrack.init img new_pts det desc timg skp sd tkp td r1).base.bb =
      (SURFTrack.init img new_pts det desc timg skp sd tkp td r2).base.bb ∧
    SURFTrack.init img new_pts det desc timg skp sd tkp td r1 =
      SURFTrack.init img new_pts det desc timg skp sd tkp td r2 :=
  ⟨rfl, rfl⟩

/-- C2: constructing a `SURFTrack` with a null template descriptor
yields the degenerate box `(1, 1, 1, 1)` and leaves every payload slot
unassigned. -/
theorem claim_C2_td_none_degenerate (img : Image) (new_pts : List KeyPoint)
    (det desc : CVHandle) (timg : Image) (skp : List KeyPoint)
    (sd : Option DescMat) (tkp : List KeyPoint) (km : KMeansOut) :
    (SURFTrack.init img new_pts det desc timg skp sd tkp none km).base.bb
      = (1, 1, 1, 1) ∧
    (SURFTrack.init img new_pts det desc timg skp sd tkp none km).pts
      = Attr.absent ∧
    (SURFTrack.init img new_pts det desc timg skp sd tkp none km).templateImg
      = Attr.absent ∧
    (SURFTrack.init img new_pts det desc timg skp sd tkp none km).skp
      = Attr.absent ∧
    (SURFTrack.init img new_pts det desc timg skp sd tkp none km).sd
      = Attr.absent ∧
    (SURFTrack.init img new_pts det desc timg skp sd tkp none km).tkp
      = Attr.absent ∧
    (SURFTrack.init img new_pts det desc timg skp sd tkp none km).td
      = Attr.absent ∧
    (SURFTrack.init img new_pts det desc timg skp sd tkp none km).detector
      = Attr.absent ∧
    (SURFTrack.init img new_pts det desc timg skp sd tkp none km).descriptor
      = Attr.absent :=
  ⟨rfl, rfl, rfl, rfl, rfl, rfl, rfl, rfl, rfl⟩

/-- C3: with a non-null template descriptor but an empty match-point
list or a null image descriptor, the box is `(1, 1, 1, 1)`, the stored
point set is Python `None`, and the remaining payload slots hold the
constructor inputs. -/
theorem claim_C3_degenerate_with_payload (img : Image)
    (new_pts : List KeyPoint) (det desc : CVHandle) (timg : Image)
    (skp : List KeyPoint) (sd : Option DescMat) (tkp : List KeyPoint)
    (tdv : DescMat) (km : KMeansOut)
    (h : new_pts = [] ∨ sd = none) :
    (SURFTrack.init img new_pts det desc timg skp sd tkp (some tdv)
      km).base.bb = (1, 1, 1, 1) ∧
    (SURFTrack.init img new_pts det desc timg skp sd tkp (some tdv)
      km).pts = Attr.val none ∧
    (SURFTrack.init img new_pts det desc timg skp sd tkp (some tdv)
      km).templateImg = Attr.val timg ∧
    (SURFTrack.init img new_pts det desc timg skp sd tkp (some tdv)
      km).skp = Attr.val skp ∧
    (SURFTrack.init img new_pts det desc timg skp sd tkp (some tdv)
      km).sd = Attr.val sd ∧
    (SURFTrack.init img new_pts det desc timg skp sd tkp (some tdv)
      km).tkp = Attr.val tkp ∧
    (SURFTrack.init img new_pts det desc timg skp sd tkp (some tdv)
      km).td = Attr.val (some tdv) ∧
    (SURFTrack.init img new_pts det desc timg skp sd tkp (some tdv)
      km).detector = Attr.val det ∧
    (SURFTrack.init img new_pts det desc timg skp sd tkp (some tdv)
      km).descriptor = Attr.val desc := by
  rcases h with h | h
  · subst h
    exact ⟨rfl, rfl, rfl, rfl, rfl, rfl, rfl, rfl, rfl⟩
  · subst h
    rcases new_pts with _ | ⟨k, ks⟩
    · exact ⟨rfl, rfl, rfl, rfl, rfl, rfl, rfl, rfl, rfl⟩
    · exact ⟨rfl, rfl, rfl, rfl, rfl, rfl, rfl, rfl, rfl⟩

/-- Witness for C3 at a concrete degenerate input (empty match list). -/
theorem claim_C3_witness :
    (SURFTrack.init ⟨10, 10⟩ [] 3 4 ⟨2, 2⟩ [] (some 7) [] (some 9)
      (0, [], [])).base.bb = (1, 1, 1, 1) ∧
    (SURFTrack.init ⟨10, 10⟩ [] 3 4 ⟨2, 2⟩ [] (some 7) [] (some 9)
      (0, [], [])).pts = Attr.val none ∧
    (SURFTrack.init ⟨10, 10⟩ [] 3 4 ⟨2, 2⟩ [] (some 7) [] (some 9)
      (0, [], [])).templateImg = Attr.val ⟨2, 2⟩ ∧
    (SURFTrack.init ⟨10, 10⟩ [] 3 4 ⟨2, 2⟩ [] (some 7) [] (some 9)
      (0, [], [])).skp = Attr.val [] ∧
    (SURFTrack.init ⟨10, 10⟩ [] 3 4 ⟨2, 2⟩ [] (some 7) [] (some 9)
      (0, [], [])).sd = Attr.val (some 7) ∧
    (SURFTrack.init ⟨10, 10⟩ [] 3 4 ⟨2, 2⟩ [] (some 7) [] (some 9)
      (0, [], [])).tkp = Attr.val [] ∧
    (SURFTrack.init ⟨10, 10⟩ [] 3 4 ⟨2, 2⟩ [] (some 7) [] (some 9)
      (0, [], [])).td = Attr.val (some 9) ∧
    (SURFTrack.init ⟨10, 10⟩ [] 3 4 ⟨2, 2⟩ [] (some 7) [] (some 9)
      (0, [], [])).detector = Attr.val 3 ∧
    (SURFTrack.init ⟨10, 10⟩ [] 3 4 ⟨2, 2⟩ [] (some 7) [] (some 9)
      (0, [], [])).descriptor = Attr.val 4 :=
  claim_C3_degenerate_with_payload ⟨10, 10⟩ [] 3 4 ⟨2, 2⟩ [] (some 7) []
    9 (0, [], []) (Or.inl rfl)

/-- C1: in the valid branch (non-null template descriptor, non-empty
match list `k :: ks`, non-null image descriptor) the bounding box is
exactly `(min_x - 5, min_y - 5, max_x - min_x + 5, max_y - min_y + 5)`
where the min/max are attained over the x and y coordinates of the
match points, and every payload slot plus the raw match-point array is
stored. -/
theorem claim_C1_valid_box_and_payload (img : Image) (k : KeyPoint)
    (ks : List KeyPoint) (det desc : CVHandle) (timg : Image)
    (skp : List KeyPoint) (sdv : DescMat) (tkp : List KeyPoint)
    (tdv : DescMat) (km : KMeansOut) :
    ∃ mnx mxx mny mxy : ℚ,
      mnx ∈ xsOf (k :: ks) ∧ (∀ a ∈ xsOf (k :: ks), mnx ≤ a) ∧
      mxx ∈ xsOf (k :: ks) ∧ (∀ a ∈ xsOf (k :: ks), a ≤ mxx) ∧
      mny ∈ ysOf (k :: ks) ∧ (∀ a ∈ ysOf (k :: ks), mny ≤ a) ∧
      mxy ∈ ysOf (k :: ks) ∧ (∀ a ∈ ysOf (k :: ks), a ≤ mxy) ∧
      (SURFTrack.init img (k :: ks) det desc timg skp (some sdv) tkp
        (some tdv) km).base.bb =
        (pyInt mnx - 5, pyInt mny - 5,
         pyInt mxx - pyInt mnx + 5, pyInt mxy - pyInt mny + 5) ∧
      (SURFTrack.init img (k :: ks) det desc timg skp (some sdv) tkp
        (some tdv) km).pts
        = Attr.val (some ((k :: ks).map KeyPoint.pt)) ∧
      (SURFTrack.init img (k :: ks) det desc timg skp (some sdv) tkp
        (some tdv) km).templateImg = Attr.val timg ∧
      (SURFTrack.init img (k :: ks) det desc timg skp (some sdv) tkp
        (some tdv) km).skp = Attr.val skp ∧
      (SURFTrack.init img (k :: ks) det desc timg skp (some sdv) tkp
        (some tdv) km).sd = Attr.val (some sdv) ∧
      (SURFTrack.init img (k :: ks) det desc timg skp (some sdv) tkp
        (some tdv) km).tkp = Attr.val tkp ∧
      (SURFTrack.init img (k :: ks) det desc timg skp (some sdv) tkp
        (some tdv) km).td = Attr.val (some tdv) ∧
      (SURFTrack.init img (k :: ks) det desc timg skp (some sdv) tkp
        (some tdv) km).detector = Attr.val det ∧
      (SURFTrack.init img (k :: ks) det desc timg skp (some sdv) tkp
        (some tdv) km).descriptor = Attr.val desc := by
  have hxs : xsOf (k :: ks) ≠ [] := by simp [xsOf]
  have hys : ysOf (k :: ks) ≠ [] := by simp [ysOf]
  refine ⟨listMin (xsOf (k :: ks)), listMax (xsOf (k :: ks)),
    listMin (ysOf (k :: ks)), listMax (ysOf (k :: ks)),
    listMin_mem _ hxs, fun a ha => listMin_le _ a ha,
    listMax_mem _ hxs, fun a ha => le_listMax _ a ha,
    listMin_mem _ hys, fun a ha => listMin_le _ a ha,
    listMax_mem _ hys, fun a ha => le_listMax _ a ha,
    rfl, rfl, rfl, rfl, rfl, rfl, rfl, rfl, rfl⟩

/-- C6: an `LKTrack` with a null or empty point list and a `SURFTrack`
whose stored point set is Python `None` or empty each perform zero
drawing-layer calls in `drawTrackerPoints`, and neither raises. -/
theorem claim_C6_draw_noop (lk : LKTrack) (sf : SURFTrack)
    (color : Option Color) (radius thickness : Option Int)
    (hlk : lk.pts = none ∨ lk.pts = some [])
    (hsf : sf.pts = Attr.val none ∨ sf.pts = Attr.val (some [])) :
    lk.drawTrackerPoints color radius thickness = [] ∧
    sf.drawTrackerPoints color radius thickness = Except.ok [] := by
  constructor
  · rcases hlk with h | h <;> simp [LKTrack.drawTrackerPoints, h]
  · rcases hsf with h | h <;> simp [SURFTrack.drawTrackerPoints, h]

/-- Witness for C6 with a null LK point list and a `SURFTrack` built
through the empty-match-list branch (stored point set `None`). -/
theorem claim_C6_witness :
    (LKTrack.init ⟨4, 4⟩ (0, 0, 2, 2) none).drawTrackerPoints none none
      none = [] ∧
    (SURFTrack.init ⟨4, 4⟩ [] 0 0 ⟨2, 2⟩ [] (some 0) [] (some 0)
      (0, [], [])).drawTrackerPoints none none none = Except.ok [] :=
  claim_C6_draw_noop (LKTrack.init ⟨4, 4⟩ (0, 0, 2, 2) none)
    (SURFTrack.init ⟨4, 4⟩ [] 0 0 ⟨2, 2⟩ [] (some 0) [] (some 0)
      (0, [], []))
    none none none (Or.inl rfl) (Or.inl rfl)

/-- C8: each text-overlay helper, called with no optional arguments,
uses font size 16, green, the documented default position derived from
the image width, and the documented format string (`%d` for
coordinates, `%f` for the size ratio, `%.2f` for velocities and shift);
on an 800-wide frame `showCoordinates` places its text at `(680, 10)`. -/
theorem claim_C8_overlay_defaults (trk : Track) (mft : MFTrack)
    (bb : Int × Int × Int × Int) :
    trk.showCoordinates none none none =
      [DLOp.set_font_size 16,
       DLOp.text "x = %d  y = %d" [(trk.x : ℚ), (trk.y : ℚ)]
         (trk.image.width - 120, 10) Color.GREEN] ∧
    Track.showSizeRatio trk none none none =
      [DLOp.set_font_size 16,
       DLOp.text "size = %f" [ Track.sizeRatio trk]
         (trk.image.width - 120, 30) Color.GREEN] ∧
    trk.showPixelVelocity none none none =
      [DLOp.set_font_size 16,
       DLOp.text "Vx = %.2f Vy = %.2f" [trk.vel.1, trk.vel.2]
         (trk.image.width - 120, 90) Color.GREEN,
       DLOp.text "in pixels/frame" []
         (trk.image.width - 120, 106) Color.GREEN] ∧
    trk.showPixelVelocityRT none none none =
      [DLOp.set_font_size 16,
       DLOp.text "Vx = %.2f Vy = %.2f" [trk.rt_vel.1, trk.rt_vel.2]
         (trk.image.width - 120, 50) Color.GREEN,
       DLOp.text "in pixels/second" []
         (trk.image.width - 120, 66) Color.GREEN] ∧
    mft.showShift none none none =
      [DLOp.set_font_size 16,
       DLOp.text "Shift = %.2f" [mft.shift]
         (mft.base.image.width - 120, 50) Color.GREEN,
       DLOp.text "in pixels/second" []
         (mft.base.image.width - 120, 66) Color.GREEN] ∧
    (Track.init ⟨800, 600⟩ bb).showCoordinates none none none =
      [DLOp.set_font_size 16,
       DLOp.text "x = %d  y = %d"
         [((Track.init ⟨800, 600⟩ bb).x : ℚ),
          ((Track.init ⟨800, 600⟩ bb).y : ℚ)]
         (680, 10) Color.GREEN] :=
  ⟨rfl, rfl, rfl, rfl, rfl, rfl⟩
